import Mathlib

/-
  Shallow embedding of the collision-benchmark adaptor layer
  (src/collision_benchmark/GazeboPhysicsWorld.cc, the PhysicsWorld
  interface header, and src/test/Static_TEST.cc).

  The external Gazebo simulator's objects (world, contact manager,
  contact records) are modelled as explicit Lean structures; the
  adaptor methods of GazeboPhysicsWorld become pure functions over
  them, with mutation made explicit by returning the new state and,
  where a claim is about which calls reach the underlying world, a
  trace of those calls.
-/

namespace CollisionBenchmark

/-- OpResult from PhysicsWorld.hh: `typedef enum _OpResult {FAILED, NOT_SUPPORTED, SUCCESS}`. -/
inductive OpResult where
  | FAILED
  | NOT_SUPPORTED
  | SUCCESS
deriving DecidableEq, Repr

/-- RefResult from PhysicsEngineWorld: `typedef enum _RefResult {ERROR, COPIED, REFERENCED}`. -/
inductive RefResult where
  | ERROR
  | COPIED
  | REFERENCED
deriving DecidableEq, Repr

/-- A 3D vector (ignition::math::Vector3d); coordinates modelled as integers,
since the adaptor only copies them and never computes with them. -/
structure Vector3 where
  x : Int
  y : Int
  z : Int
deriving DecidableEq, Repr

/-- A contact wrench (gazebo JointWrench): forces and torques on the two bodies. -/
structure Wrench where
  body1Force : Vector3
  body1Torque : Vector3
  body2Force : Vector3
  body2Torque : Vector3
deriving DecidableEq, Repr

/-- The model/link naming data reachable from a gazebo collision object:
`collision->GetModel()->GetName()` and `collision->GetLink()->GetName()`. -/
structure GzCollisionRef where
  model : String
  link : String
deriving DecidableEq, Repr

/-- A gazebo::physics::Contact record as held by the contact manager:
two collision references, a point count, and per-point arrays
(C arrays, modelled as total functions from the index). -/
structure GzContact where
  collision1 : GzCollisionRef
  collision2 : GzCollisionRef
  count : Nat
  positions : Nat → Vector3
  normals : Nat → Vector3
  wrench : Nat → Wrench
  depths : Nat → Int

/-- The gazebo::physics::World object the adaptor wraps: its name, its own
pause flag, whether its run loop is active, its iteration counter, the
contact manager's records (world->Physics()->GetContactManager()->GetContacts()),
and the model poses that make up its world state. -/
structure GzWorld where
  name : String
  paused : Bool
  running : Bool
  iterations : Nat
  contacts : List GzContact
  modelPoses : String → Vector3

/-- A shared pointer to a gazebo world: the address models object identity
(two pointers with the same address denote the same underlying object). -/
structure PtrGzWorld where
  addr : Nat
  val : GzWorld

/-- The repository's own Contact struct (collision_benchmark::Contact),
one entry per contact point, built by copying the simulator's fields. -/
structure Contact where
  position : Vector3
  normal : Vector3
  wrench : Wrench
  depth : Int
deriving DecidableEq, Repr

/-- The repository's ContactInfo struct: the two model names, their link
names, and the copied contact points. -/
structure ContactInfo where
  model1 : String
  link1 : String
  model2 : String
  link2 : String
  contacts : List Contact
deriving DecidableEq, Repr

/-- Builds the ContactInfo for one contact-manager record, as in
GetContactInfoHelper: the constructor takes the model and link names of
collision1 and collision2, then the loop `for (int i=0; i < c->count; ++i)`
pushes `Contact(c->positions[i], c->normals[i], c->wrench[i], c->depths[i])`. -/
def mkContactInfo (c : GzContact) : ContactInfo :=
  { model1 := c.collision1.model
    link1 := c.collision1.link
    model2 := c.collision2.model
    link2 := c.collision2.link
    contacts := (List.range c.count).map
      (fun i => { position := c.positions i
                  normal := c.normals i
                  wrench := c.wrench i
                  depth := c.depths i }) }

/-- The `continue` condition of both helper loops: with both filters set the
record is skipped iff `(*m1!=m1Name || *m2!=m2Name) && (*m1!=m2Name || *m2!=m1Name)`;
with only m1 set it is skipped iff `*m1!=m1Name && *m1!=m2Name`; with m1
null no record is skipped. -/
def skipRecord (m1 m2 : Option String) (n1 n2 : String) : Bool :=
  match m1, m2 with
  | some a, some b => ((a != n1) || (b != n2)) && ((a != n2) || (b != n1))
  | some a, none => (a != n1) && (a != n2)
  | none, _ => false

/-- The stderr diagnostic GetContactInfoHelper prints for a record whose
contacts vector came out empty. -/
def contactErrMsg (worldName n1 n2 : String) : String :=
  "CONSISTENCY GazeboPhysicsWorld: If there are no contacts, there should be no collision!! World: "
    ++ worldName ++ " Models: " ++ n1 ++ ", " ++ n2

/-- The loop of GetContactInfoHelper over the contact manager's records:
skipped records contribute nothing; a kept record with an empty contacts
vector contributes a stderr message; otherwise its ContactInfo is pushed.
Returns the result vector together with the stderr messages. -/
def GetContactInfoLoop (worldName : String) (m1 m2 : Option String) :
    List GzContact → List ContactInfo × List String
  | [] => ([], [])
  | c :: rest =>
    let tailRes := GetContactInfoLoop worldName m1 m2 rest
    let n1 := c.collision1.model
    let n2 := c.collision2.model
    if skipRecord m1 m2 n1 n2 then tailRes
    else
      let cInfo := mkContactInfo c
      if cInfo.contacts.isEmpty then
        (tailRes.1, contactErrMsg worldName n1 n2 :: tailRes.2)
      else
        (cInfo :: tailRes.1, tailRes.2)

/-- GetContactInfoHelper(world, m1, m2): iterates over
world->Physics()->GetContactManager()->GetContacts(). -/
def GetContactInfoHelper (w : GzWorld) (m1 m2 : Option String) :
    List ContactInfo × List String :=
  GetContactInfoLoop w.name m1 m2 w.contacts

/-- The `null_deleter` template: a deleter that does nothing. The effect of
a deleter is modelled as the list of deallocation actions it performs. -/
def null_deleter (_c : GzContact) : List String := []

/-- A std::shared_ptr<gazebo::physics::Contact> as returned by
GetNativeContacts: the pointed-to record together with its deleter. -/
structure NativeContactPtr where
  get : GzContact
  deleter : GzContact → List String

/-- The loop of GetNativeContactsHelper: same model filter as
GetContactInfoHelper, but each kept record is wrapped as a shared pointer
with `null_deleter` and no record is dropped for having no points. -/
def GetNativeContactsLoop (m1 m2 : Option String) :
    List GzContact → List NativeContactPtr
  | [] => []
  | c :: rest =>
    let tailRes := GetNativeContactsLoop m1 m2 rest
    let n1 := c.collision1.model
    let n2 := c.collision2.model
    if skipRecord m1 m2 n1 n2 then tailRes
    else { get := c, deleter := null_deleter } :: tailRes

/-- GetNativeContactsHelper(world, m1, m2). -/
def GetNativeContactsHelper (w : GzWorld) (m1 m2 : Option String) :
    List NativeContactPtr :=
  GetNativeContactsLoop m1 m2 w.contacts

/-- Modelled from the spec: gazebo::physics::WorldState and its arithmetic
live in the external simulator (GazeboWorldState.hh is not part of src/).
A world state as used by GetWorldState/SetWorldState is modelled as the
pose of each model; per the interface documentation a differential state
is the per-model difference such that applying it onto the current state
yields the target state. -/
def WorldState := String → Vector3

/-- Modelled from the spec: subtraction of world states
(gazebo::physics::WorldState operator-), per-model pose difference. -/
def stateSub (a b : WorldState) : WorldState :=
  fun m => { x := (a m).x - (b m).x
             y := (a m).y - (b m).y
             z := (a m).z - (b m).z }

/-- Modelled from the spec: applying a differential state onto a current
state (the interface doc for SetWorldState with isDiff = true), per-model
pose addition. -/
def stateApply (cur diff : WorldState) : WorldState :=
  fun m => { x := (cur m).x + (diff m).x
             y := (cur m).y + (diff m).y
             z := (cur m).z + (diff m).z }

/-- Modelled from the spec: collision_benchmark::SetWorldState(world, state)
(GazeboWorldState.hh, not part of src/) establishes the given state in the
underlying world. -/
def applyWorldState (w : GzWorld) (state : WorldState) : GzWorld :=
  { w with modelPoses := state }

/-- world->Stop(): the run loop is stopped. -/
def GzWorld.stop (w : GzWorld) : GzWorld :=
  { w with running := false }

/-- world->SetPaused(b): the gazebo world's own pause flag. -/
def GzWorld.setPausedNative (w : GzWorld) (b : Bool) : GzWorld :=
  { w with paused := b }

/-- world->Run(n): the run loop is started (with the world paused it idles
without stepping). -/
def GzWorld.run (w : GzWorld) (_iters : Nat) : GzWorld :=
  { w with running := true }

/-- world->Step(n): advances the simulation by n steps (works while the
world is paused; it advances the state despite the paused state). -/
def GzWorld.step (w : GzWorld) (n : Nat) : GzWorld :=
  { w with iterations := w.iterations + n }

/-- The calls a GazeboPhysicsWorld method can make on the underlying
gazebo world, for tracing which of them an Update issues. -/
inductive GzCall where
  | setPausedC (b : Bool)
  | stepC (n : Nat)
  | runC (n : Nat)
  | stopC
deriving DecidableEq, Repr

/-- The GazeboPhysicsWorld adaptor's own state: the shared pointer to the
wrapped gazebo world, the enforceContactComputation flag, the adaptor-local
paused flag (NEW_WORLDRUN_SOLUTION is defined), and whether the contacts
subscription is active (CONTACTS_ENFORCABLE is not defined). -/
structure GazeboPhysicsWorld where
  world : PtrGzWorld
  enforceContactComputation : Bool
  paused : Bool
  contactsSubActive : Bool

/-- GazeboPhysicsWorld::IsAdaptor(): returns true. -/
def GazeboPhysicsWorld.IsAdaptor (_s : GazeboPhysicsWorld) : Bool := true

/-- GazeboPhysicsWorld::IsPaused(): returns the adaptor-local flag. -/
def GazeboPhysicsWorld.IsPaused (s : GazeboPhysicsWorld) : Bool := s.paused

/-- GazeboPhysicsWorld::SetPaused(flag): sets only the adaptor-local flag. -/
def GazeboPhysicsWorld.SetPaused (s : GazeboPhysicsWorld) (flag : Bool) :
    GazeboPhysicsWorld :=
  { s with paused := flag }

/-- GazeboPhysicsWorld::SetEnforceContactsComputation(flag): stores the flag
and (CONTACTS_ENFORCABLE undefined) subscribes to the contacts topic when
set, resets the subscription otherwise. -/
def GazeboPhysicsWorld.SetEnforceContactsComputation
    (s : GazeboPhysicsWorld) (flag : Bool) : GazeboPhysicsWorld :=
  { s with enforceContactComputation := flag, contactsSubActive := flag }

/-- GazeboPhysicsWorld::PostWorldLoaded(): world->Stop();
world->SetPaused(true); world->Run(0). -/
def postWorldLoaded (w : GzWorld) : GzWorld :=
  ((w.stop).setPausedNative true).run 0

/-- GazeboPhysicsWorld::SetWorld(world): stores the pointer, re-applies
SetEnforceContactsComputation, runs PostWorldLoaded on the underlying
world, and returns REFERENCED. -/
def GazeboPhysicsWorld.SetWorld (s : GazeboPhysicsWorld) (w : PtrGzWorld) :
    GazeboPhysicsWorld × RefResult :=
  let s1 := { s with world := w }
  let s2 := s1.SetEnforceContactsComputation s1.enforceContactComputation
  let s3 := { s2 with world := { s2.world with val := postWorldLoaded s2.world.val } }
  (s3, RefResult.REFERENCED)

/-- GazeboPhysicsWorld::GetWorld(): returns the stored pointer. -/
def GazeboPhysicsWorld.GetWorld (s : GazeboPhysicsWorld) : PtrGzWorld :=
  s.world

/-- GazeboPhysicsWorld::GetWorldState(): constructs the state from the
underlying world. -/
def GazeboPhysicsWorld.GetWorldState (s : GazeboPhysicsWorld) : WorldState :=
  s.world.val.modelPoses

/-- GazeboPhysicsWorld::GetWorldStateDiff(other):
`diffState = other - GetWorldState()`. -/
def GazeboPhysicsWorld.GetWorldStateDiff
    (s : GazeboPhysicsWorld) (other : WorldState) : WorldState :=
  stateSub other s.GetWorldState

/-- GazeboPhysicsWorld::SetWorldState(state, isDiff): calls
collision_benchmark::SetWorldState(world, state) and returns SUCCESS
unconditionally (the DEBUG block only prints). -/
def GazeboPhysicsWorld.SetWorldState
    (s : GazeboPhysicsWorld) (state : WorldState) (_isDiff : Bool) :
    GazeboPhysicsWorld × OpResult :=
  ({ s with world := { s.world with val := applyWorldState s.world.val state } },
   OpResult.SUCCESS)

/-- GazeboPhysicsWorld::Update(steps, force) with NEW_WORLDRUN_SOLUTION:
returns at once when not forced and the adaptor is paused; otherwise puts
the gazebo world into paused mode if it is not already, then calls
world->Step(steps) once. Returns the new adaptor state and the trace of
calls made on the underlying world. -/
def GazeboPhysicsWorld.Update
    (s : GazeboPhysicsWorld) (steps : Nat) (force : Bool) :
    GazeboPhysicsWorld × List GzCall :=
  if !force && s.IsPaused then (s, [])
  else
    let w := s.world.val
    let paj : GzWorld × List GzCall :=
      if !w.paused then (w.setPausedNative true, [GzCall.setPausedC true])
      else (w, [])
    let w2 := paj.1.step steps
    ({ s with world := { s.world with val := w2 } },
     paj.2 ++ [GzCall.stepC steps])

/-- GazeboPhysicsWorld::GetContactInfo(): no model filter. -/
def GazeboPhysicsWorld.GetContactInfo (s : GazeboPhysicsWorld) :
    List ContactInfo :=
  (GetContactInfoHelper s.world.val none none).1

/-- GazeboPhysicsWorld::GetContactInfo(m1, m2): both model filters set. -/
def GazeboPhysicsWorld.GetContactInfoFor
    (s : GazeboPhysicsWorld) (m1 m2 : String) : List ContactInfo :=
  (GetContactInfoHelper s.world.val (some m1) (some m2)).1

/-- GazeboPhysicsWorld::GetNativeContacts(). -/
def GazeboPhysicsWorld.GetNativeContacts (s : GazeboPhysicsWorld) :
    List NativeContactPtr :=
  GetNativeContactsHelper s.world.val none none

/-- GazeboPhysicsWorld::GetNativeContacts(m1, m2). -/
def GazeboPhysicsWorld.GetNativeContactsFor
    (s : GazeboPhysicsWorld) (m1 m2 : String) : List NativeContactPtr :=
  GetNativeContactsHelper s.world.val (some m1) (some m2)

/-
  The static comparison benchmark (src/test/Static_TEST.cc).
  StaticTestFramework::PrepareWorld / LoadShape / AaBbTest live in
  StaticTestFramework.hh, which is not part of src/; their effect on the
  set of worlds is modelled from the spec below, while the engine lists
  and model names come from the test source.
-/

/-- One physics-engine world of the benchmark: the engine it runs on and
the models loaded into it. -/
structure EngineWorld where
  engine : String
  models : List String
deriving DecidableEq, Repr

/-- Modelled from the spec: StaticTestFramework::PrepareWorld(engines)
(StaticTestFramework.hh is not part of src/) creates one independently
running physics-engine world per selected engine, initially empty. -/
def PrepareWorld (engines : List String) : List EngineWorld :=
  engines.map (fun e => { engine := e, models := [] })

/-- Modelled from the spec: StaticTestFramework::LoadShape(shape, modelname)
(StaticTestFramework.hh is not part of src/) loads the same shape model,
under the same name, into every prepared world. -/
def LoadShape (worlds : List EngineWorld) (modelname : String) :
    List EngineWorld :=
  worlds.map (fun w => { w with models := w.models ++ [modelname] })

/-- The engines selected in StaticTest::TwoShapesTest1: bullet, ode and
dart are pushed; the simbody line is commented out in the source. -/
def twoShapesTest1Engines : List String := ["bullet", "ode", "dart"]

/-- The worlds of StaticTest::TwoShapesTest1 after PrepareWorld and the two
LoadShape calls for model1 (a box) and model2 (a cylinder). -/
def twoShapesTest1Worlds : List EngineWorld :=
  LoadShape (LoadShape (PrepareWorld twoShapesTest1Engines) "model1") "model2"

/-- The engines selected in StaticTest::SpherePrimMesh: again bullet, ode
and dart, with the simbody line commented out. -/
def spherePrimMeshEngines : List String := ["bullet", "ode", "dart"]

/-- The worlds of StaticTest::SpherePrimMesh after PrepareWorld and the two
LoadShape calls for SphereMesh and SpherePrimitive. -/
def spherePrimMeshWorlds : List EngineWorld :=
  LoadShape (LoadShape (PrepareWorld spherePrimMeshEngines) "SphereMesh")
    "SpherePrimitive"

/-- The model filter as the claim about GetContactInfo(m1, m2) words it:
the record's two colliding models equal m1 and m2 as an unordered pair.
Stated from the spec's words, to be compared with the source-derived
skipRecord condition. -/
def specPairMatch (m1 m2 n1 n2 : String) : Bool :=
  ((m1 == n1) && (m2 == n2)) || ((m1 == n2) && (m2 == n1))

/-- The zero vector, for building concrete contact records. -/
def zeroVec : Vector3 := { x := 0, y := 0, z := 0 }

/-- A zero wrench, for building concrete contact records. -/
def zeroWrench : Wrench :=
  { body1Force := zeroVec, body1Torque := zeroVec
    body2Force := zeroVec, body2Torque := zeroVec }

/-- A concrete contact-manager record between models a and b whose point
count is zero (the case the helper's consistency check diagnoses). -/
def cexContact : GzContact :=
  { collision1 := { model := "a", link := "la" }
    collision2 := { model := "b", link := "lb" }
    count := 0
    positions := fun _ => zeroVec
    normals := fun _ => zeroVec
    wrench := fun _ => zeroWrench
    depths := fun _ => 0 }

/-- A concrete contact-manager record between models a and b with one
contact point. -/
def witContact : GzContact :=
  { collision1 := { model := "a", link := "la" }
    collision2 := { model := "b", link := "lb" }
    count := 1
    positions := fun _ => { x := 1, y := 2, z := 3 }
    normals := fun _ => { x := 0, y := 0, z := 1 }
    wrench := fun _ => zeroWrench
    depths := fun _ => 4 }

/-- A concrete gazebo world whose contact manager holds exactly the one
zero-point record cexContact. -/
def cexWorld : GzWorld :=
  { name := "w0", paused := true, running := true, iterations := 0,
    contacts := [cexContact], modelPoses := fun _ => zeroVec }

/-- A concrete gazebo world whose contact manager holds exactly the one
one-point record witContact. -/
def witWorld : GzWorld :=
  { name := "w1", paused := true, running := true, iterations := 0,
    contacts := [witContact], modelPoses := fun _ => zeroVec }

/-- A concrete adaptor wrapping cexWorld, not paused. -/
def cexAdaptor : GazeboPhysicsWorld :=
  { world := { addr := 0, val := cexWorld }, enforceContactComputation := false,
    paused := false, contactsSubActive := false }

/-- A concrete adaptor wrapping witWorld, not paused. -/
def witAdaptor : GazeboPhysicsWorld :=
  { world := { addr := 1, val := witWorld }, enforceContactComputation := false,
    paused := false, contactsSubActive := false }

/-- A concrete adaptor wrapping witWorld whose adaptor-local paused flag
is set. -/
def pausedAdaptor : GazeboPhysicsWorld :=
  { world := { addr := 2, val := witWorld }, enforceContactComputation := false,
    paused := true, contactsSubActive := false }

/-! Helper lemmas about the contact helpers. -/

/-- The contacts vector built for a record has one entry per contact point. -/
lemma mkContactInfo_length (c : GzContact) :
    (mkContactInfo c).contacts.length = c.count := by
  simp [mkContactInfo]

/-- The contacts vector built for a record is empty exactly when the
record's point count is zero. -/
lemma mkContactInfo_isEmpty (c : GzContact) :
    (mkContactInfo c).contacts.isEmpty = (c.count == 0) := by
  cases hcount : c.count with
  | zero => simp [mkContactInfo, hcount]
  | succ n => simp [mkContactInfo, hcount, List.range_succ]

/-- Boolean normal form of the double-negated skip condition. -/
lemma bool_skip_aux : ∀ p q r s : Bool,
    (!((!p || !q) && (!r || !s))) = ((p && q) || (r && s)) := by
  decide

/-- With both filters set, not skipping a record is exactly the unordered
pair match the spec describes. -/
lemma skipRecord_pair (a b n1 n2 : String) :
    (!(skipRecord (some a) (some b) n1 n2)) = specPairMatch a b n1 n2 := by
  simp only [skipRecord, specPairMatch, bne]
  exact bool_skip_aux (a == n1) (b == n2) (a == n2) (b == n1)

/-- With no filter set, no record is skipped. -/
lemma skipRecord_none (n1 n2 : String) :
    skipRecord none none n1 n2 = false := rfl

/-- The GetContactInfoHelper loop, characterised: the result vector is the
records that pass the model filter and have at least one point, copied via
mkContactInfo; the stderr messages are one per filtered record with no
point. -/
lemma getContactInfoLoop_spec (wn : String) (m1 m2 : Option String)
    (cs : List GzContact) :
    GetContactInfoLoop wn m1 m2 cs =
      ((cs.filter (fun c =>
          !skipRecord m1 m2 c.collision1.model c.collision2.model
            && c.count != 0)).map mkContactInfo,
       (cs.filter (fun c =>
          !skipRecord m1 m2 c.collision1.model c.collision2.model
            && c.count == 0)).map
         (fun c => contactErrMsg wn c.collision1.model c.collision2.model)) := by
  induction cs with
  | nil => rfl
  | cons c rest ih =>
    cases hskip : skipRecord m1 m2 c.collision1.model c.collision2.model with
    | true =>
      simp [GetContactInfoLoop, hskip, ih, List.filter_cons]
    | false =>
      cases hcount : c.count with
      | zero =>
        simp [GetContactInfoLoop, hskip, ih, List.filter_cons,
              mkContactInfo_isEmpty, hcount]
      | succ n =>
        simp [GetContactInfoLoop, hskip, ih, List.filter_cons,
              mkContactInfo_isEmpty, hcount]

/-- The GetNativeContactsHelper loop, characterised: every record passing
the model filter is wrapped with the do-nothing deleter; none is dropped. -/
lemma getNativeContactsLoop_spec (m1 m2 : Option String)
    (cs : List GzContact) :
    GetNativeContactsLoop m1 m2 cs =
      (cs.filter (fun c =>
        !skipRecord m1 m2 c.collision1.model c.collision2.model)).map
        (fun c => { get := c, deleter := null_deleter }) := by
  induction cs with
  | nil => rfl
  | cons c rest ih =>
    cases hskip : skipRecord m1 m2 c.collision1.model c.collision2.model with
    | true => simp [GetNativeContactsLoop, hskip, ih, List.filter_cons]
    | false => simp [GetNativeContactsLoop, hskip, ih, List.filter_cons]

/-! The claims. -/

/-- C1 counterexample: the contact manager of cexWorld holds exactly one
record, whose colliding models are the pair a, b and whose point count is
zero; yet GetContactInfo("a", "b") does not return it and the zero-argument
GetContactInfo returns no entry for it, refuting both halves of the claim
as stated. -/
theorem C1_counterexample :
    cexAdaptor.world.val.contacts.map
        (fun c => (c.collision1.model, c.collision2.model, c.count))
      = [("a", "b", 0)] ∧
    cexAdaptor.GetContactInfoFor "a" "b" = [] ∧
    cexAdaptor.GetContactInfo = [] ∧
    ¬ (cexAdaptor.GetContactInfo).length
        = cexAdaptor.world.val.contacts.length := by
  refine ⟨rfl, rfl, rfl, ?_⟩
  intro h
  have h0 : (cexAdaptor.GetContactInfo).length = 0 := rfl
  have h1 : cexAdaptor.world.val.contacts.length = 1 := rfl
  rw [h0, h1] at h
  exact Nat.noConfusion h

/-- C1 amended: GetContactInfo(m1, m2) returns exactly those contact-manager
records with at least one contact point whose two colliding models are m1
and m2 as an unordered pair, copied via mkContactInfo in manager order; the
zero-argument GetContactInfo returns one entry per contact-manager record
with at least one contact point, with no model filter applied. -/
theorem C1_contact_filter (s : GazeboPhysicsWorld) (m1 m2 : String) :
    s.GetContactInfoFor m1 m2 =
      (s.world.val.contacts.filter (fun c =>
        specPairMatch m1 m2 c.collision1.model c.collision2.model
          && c.count != 0)).map mkContactInfo ∧
    s.GetContactInfo =
      (s.world.val.contacts.filter (fun c => c.count != 0)).map
        mkContactInfo := by
  constructor
  · simp only [GazeboPhysicsWorld.GetContactInfoFor, GetContactInfoHelper,
      getContactInfoLoop_spec, skipRecord_pair]
  · simp only [GazeboPhysicsWorld.GetContactInfo, GetContactInfoHelper,
      getContactInfoLoop_spec, skipRecord_none, Bool.not_false,
      Bool.true_and]

/-- C2: the Gazebo adaptor does not copy the world it is given: IsAdaptor()
returns true, SetWorld(w) returns REFERENCED, and a subsequent GetWorld()
returns a pointer to the same underlying world object (same address), not
a copy. -/
theorem C2_adaptor_references_world (s : GazeboPhysicsWorld)
    (w : PtrGzWorld) :
    s.IsAdaptor = true ∧
    (s.SetWorld w).2 = RefResult.REFERENCED ∧
    ((s.SetWorld w).1.GetWorld).addr = w.addr :=
  ⟨rfl, rfl, rfl⟩

/-- C3: for every Update(steps, force) call on an adaptor that is not
paused (or with force true), the underlying Gazebo world is first put into
paused mode if it is not already, then advanced by exactly the requested
number of steps via a single world->Step(steps) call; no Run call (no
self-running) occurs during Update, and afterwards the world is paused
with its iteration count advanced by steps. -/
theorem C3_update_lockstep (s : GazeboPhysicsWorld) (steps : Nat)
    (force : Bool) (h : force = true ∨ s.IsPaused = false) :
    (s.Update steps force).2 =
      (if s.world.val.paused then [] else [GzCall.setPausedC true])
        ++ [GzCall.stepC steps] ∧
    (s.Update steps force).1.world.val.iterations
      = s.world.val.iterations + steps ∧
    (s.Update steps force).1.world.val.paused = true ∧
    (∀ n, GzCall.runC n ∉ (s.Update steps force).2) := by
  have hrun : (!force && s.IsPaused) = false := by
    rcases h with h | h
    · simp [h]
    · simp [h]
  cases hp : s.world.val.paused with
  | true =>
    simp [GazeboPhysicsWorld.Update, hrun, hp, GzWorld.step,
          GzWorld.setPausedNative]
  | false =>
    simp [GazeboPhysicsWorld.Update, hrun, hp, GzWorld.step,
          GzWorld.setPausedNative]

/-- C3 witness: on the concrete non-paused adaptor cexAdaptor (whose gazebo
world is already paused), Update(5, false) emits exactly one Step(5) call
and advances the iteration count by 5. -/
theorem C3_update_lockstep_witness :
    (cexAdaptor.Update 5 false).2 = [GzCall.stepC 5] ∧
    (cexAdaptor.Update 5 false).1.world.val.iterations = 5 :=
  ⟨(C3_update_lockstep cexAdaptor 5 false (Or.inr rfl)).1,
   (C3_update_lockstep cexAdaptor 5 false (Or.inr rfl)).2.1⟩

/-- C4: every entry returned by the zero-argument GetContactInfo is a
field-by-field copy of some contact-manager record: it holds exactly
count contacts, the i-th being built from copies of positions[i],
normals[i], wrench[i] and depths[i], together with the two model names and
their link names. -/
theorem C4_contact_copies (s : GazeboPhysicsWorld) (ci : ContactInfo)
    (hci : ci ∈ s.GetContactInfo) :
    ∃ c ∈ s.world.val.contacts,
      ci = mkContactInfo c ∧
      ci.contacts.length = c.count ∧
      (∀ i, i < c.count →
        ci.contacts[i]? =
          some { position := c.positions i, normal := c.normals i,
                 wrench := c.wrench i, depth := c.depths i }) ∧
      ci.model1 = c.collision1.model ∧ ci.link1 = c.collision1.link ∧
      ci.model2 = c.collision2.model ∧ ci.link2 = c.collision2.link := by
  simp only [GazeboPhysicsWorld.GetContactInfo, GetContactInfoHelper,
    getContactInfoLoop_spec] at hci
  obtain ⟨c, hcmem, rfl⟩ := List.mem_map.mp hci
  have hfilt := List.mem_filter.mp hcmem
  refine ⟨c, hfilt.1, rfl, mkContactInfo_length c, ?_, rfl, rfl, rfl, rfl⟩
  intro i hi
  simp [mkContactInfo, List.getElem?_map, List.getElem?_range, hi]

/-- C4 witness: applying the theorem to the concrete adaptor witAdaptor and
the entry its GetContactInfo returns for the one-point record witContact. -/
theorem C4_contact_copies_witness :
    ∃ c ∈ witAdaptor.world.val.contacts,
      mkContactInfo witContact = mkContactInfo c ∧
      (mkContactInfo witContact).contacts.length = c.count ∧
      (∀ i, i < c.count →
        (mkContactInfo witContact).contacts[i]? =
          some { position := c.positions i, normal := c.normals i,
                 wrench := c.wrench i, depth := c.depths i }) ∧
      (mkContactInfo witContact).model1 = c.collision1.model ∧
      (mkContactInfo witContact).link1 = c.collision1.link ∧
      (mkContactInfo witContact).model2 = c.collision2.model ∧
      (mkContactInfo witContact).link2 = c.collision2.link :=
  C4_contact_copies witAdaptor (mkContactInfo witContact) (by decide)

/-- C5 counterexample: the static benchmark tests select only bullet, ode
and dart (the simbody line is commented out in Static_TEST.cc), so no
world for the Simbody engine is created: the claim that the scene is
loaded for all four engines including Simbody fails on the code. -/
theorem C5_counterexample :
    "simbody" ∉ twoShapesTest1Engines ∧
    "simbody" ∉ twoShapesTest1Worlds.map EngineWorld.engine ∧
    "simbody" ∉ spherePrimMeshEngines ∧
    "simbody" ∉ spherePrimMeshWorlds.map EngineWorld.engine := by
  decide

/-- C5 amended: the benchmark loads the same pair of shape models into one
independently running physics-engine world per selected engine, for the
three engines bullet, ode and dart (the simbody engine is commented out
and not selected), before comparing their contact points. -/
theorem C5_same_scene_per_engine :
    twoShapesTest1Worlds.map EngineWorld.engine = ["bullet", "ode", "dart"] ∧
    twoShapesTest1Worlds.map EngineWorld.models =
      [["model1", "model2"], ["model1", "model2"], ["model1", "model2"]] ∧
    spherePrimMeshWorlds.map EngineWorld.engine = ["bullet", "ode", "dart"] ∧
    spherePrimMeshWorlds.map EngineWorld.models =
      [["SphereMesh", "SpherePrimitive"], ["SphereMesh", "SpherePrimitive"],
       ["SphereMesh", "SpherePrimitive"]] := by
  refine ⟨rfl, rfl, rfl, rfl⟩

/-- C6: GetWorldStateDiff(other) returns the differential state computed as
other minus the current world state, and applying that differential state
onto the current state puts the world in state other. -/
theorem C6_world_state_diff (s : GazeboPhysicsWorld) (other : WorldState) :
    s.GetWorldStateDiff other = stateSub other s.GetWorldState ∧
    stateApply s.GetWorldState (s.GetWorldStateDiff other) = other := by
  refine ⟨rfl, ?_⟩
  funext m
  show Vector3.mk _ _ _ = other m
  have hx : ∀ a b : Int, a + (b - a) = b := fun a b => by ring
  simp only [stateApply, stateSub, GazeboPhysicsWorld.GetWorldStateDiff,
    GazeboPhysicsWorld.GetWorldState, hx]

/-- C7: the adaptor never takes ownership of simulator-owned contact
records: GetNativeContactsHelper wraps each record passing the model filter
in a shared pointer whose deleter is null_deleter, and null_deleter
performs no deallocation action at all. -/
theorem C7_no_ownership (s : GazeboPhysicsWorld) (m1 m2 : Option String) :
    GetNativeContactsHelper s.world.val m1 m2 =
      (s.world.val.contacts.filter (fun c =>
        !skipRecord m1 m2 c.collision1.model c.collision2.model)).map
        (fun c => { get := c, deleter := null_deleter }) ∧
    (∀ c, null_deleter c = []) :=
  ⟨getNativeContactsLoop_spec m1 m2 s.world.val.contacts, fun _ => rfl⟩

/-- C8: SetWorldState returns SUCCESS for every input state and both values
of isDiff; the FAILED and NOT_SUPPORTED results documented in the interface
are never returned by this implementation. -/
theorem C8_set_world_state_success (s : GazeboPhysicsWorld)
    (state : WorldState) (isDiff : Bool) :
    (s.SetWorldState state isDiff).2 = OpResult.SUCCESS ∧
    (s.SetWorldState state isDiff).2 ≠ OpResult.FAILED ∧
    (s.SetWorldState state isDiff).2 ≠ OpResult.NOT_SUPPORTED :=
  ⟨rfl, fun h => OpResult.noConfusion h, fun h => OpResult.noConfusion h⟩

/-- C9: SetPaused(flag) changes only the adaptor-local flag (IsPaused then
returns flag, and the underlying gazebo world object, including its own
pause state, is untouched); Update(steps, false) while paused returns
without any call on the underlying world and leaves the adaptor state
unchanged, whereas Update(steps, true) steps the world despite the pause. -/
theorem C9_pause_is_local :
    (∀ (s : GazeboPhysicsWorld) (flag : Bool),
      (s.SetPaused flag).IsPaused = flag ∧
      (s.SetPaused flag).world = s.world) ∧
    (∀ (s : GazeboPhysicsWorld) (steps : Nat),
      s.IsPaused = true → s.Update steps false = (s, [])) ∧
    (∀ (s : GazeboPhysicsWorld) (steps : Nat),
      (s.Update steps true).1.world.val.iterations
        = s.world.val.iterations + steps) := by
  refine ⟨fun s flag => ⟨rfl, rfl⟩, ?_, ?_⟩
  · intro s steps hp
    have hp2 : s.paused = true := hp
    simp [GazeboPhysicsWorld.Update, GazeboPhysicsWorld.IsPaused, hp2]
  · intro s steps
    cases hw : s.world.val.paused with
    | true =>
      simp [GazeboPhysicsWorld.Update, hw, GzWorld.step,
        GzWorld.setPausedNative]
    | false =>
      simp [GazeboPhysicsWorld.Update, hw, GzWorld.step,
        GzWorld.setPausedNative]

/-- C9 witness: on the concrete paused adaptor pausedAdaptor, Update(7,
false) is a no-op with an empty call trace, and SetPaused(false) flips the
adaptor-local flag back. -/
theorem C9_pause_is_local_witness :
    pausedAdaptor.Update 7 false = (pausedAdaptor, []) ∧
    (pausedAdaptor.SetPaused false).IsPaused = false ∧
    (pausedAdaptor.Update 7 true).1.world.val.iterations = 7 :=
  ⟨C9_pause_is_local.2.1 pausedAdaptor 7 rfl,
   (C9_pause_is_local.1 pausedAdaptor false).1,
   C9_pause_is_local.2.2 pausedAdaptor 7⟩

/-- C10: every ContactInfo entry returned by GetContactInfoHelper (with or
without model filter) has a non-empty contacts vector, and the records
whose point count is zero but which pass the model filter are diagnosed by
exactly one stderr message each and excluded from the result. -/
theorem C10_no_empty_entries (s : GazeboPhysicsWorld)
    (m1 m2 : Option String) :
    (∀ ci ∈ (GetContactInfoHelper s.world.val m1 m2).1,
      ci.contacts ≠ []) ∧
    (GetContactInfoHelper s.world.val m1 m2).2 =
      (s.world.val.contacts.filter (fun c =>
        !skipRecord m1 m2 c.collision1.model c.collision2.model
          && c.count == 0)).map
        (fun c => contactErrMsg s.world.val.name c.collision1.model
          c.collision2.model) := by
  constructor
  · intro ci hci
    simp only [GetContactInfoHelper, getContactInfoLoop_spec] at hci
    obtain ⟨c, hcmem, rfl⟩ := List.mem_map.mp hci
    have hcount : (c.count != 0) = true :=
      (Bool.and_eq_true _ _ |>.mp (List.mem_filter.mp hcmem).2).2
    intro hnil
    have hlen : c.count = 0 := by
      have := mkContactInfo_length c
      rw [hnil] at this
      simpa using this.symm
    simp [hlen] at hcount
  · exact congrArg Prod.snd
      (getContactInfoLoop_spec s.world.val.name m1 m2 s.world.val.contacts)

/-- C10 witness: applying the theorem to the concrete adaptor witAdaptor
and the entry returned for the one-point record witContact, and to the
adaptor cexAdaptor whose only record has no points, for which exactly the
diagnostic message is produced. -/
theorem C10_no_empty_entries_witness :
    (mkContactInfo witContact).contacts ≠ [] ∧
    (GetContactInfoHelper cexAdaptor.world.val none none).2 =
      [contactErrMsg "w0" "a" "b"] :=
  ⟨(C10_no_empty_entries witAdaptor none none).1
      (mkContactInfo witContact) (by decide),
   (C10_no_empty_entries cexAdaptor none none).2⟩

end CollisionBenchmark
